import Mathlib

/-!
# Verification of the prayer-time calculation core (`prayer_service.py`)

A shallow embedding of the numerical prayer-time engine of this repository:
the method registry, the solar-position helpers, the per-angle prayer time
computation (`_calculate_time`), the daily pipeline (`calculate_prayer_times`),
the `HH:MM` formatter (`_format_time`), the next-prayer resolver
(`get_next_prayer`) and the qibla calculation (`get_qibla_direction`).

Machine floats are modelled by real numbers; Python dictionaries of prayer
times by association lists; Python exceptions by explicit `Except` values.
-/

namespace PrayerService

/-- Runtime errors of the next-prayer resolver: a Python `KeyError` raised by
a bare `dict[key]` access on a missing key. -/
inductive RuntimeErr where
  | keyError
  deriving DecidableEq, Repr

/-- The result record built by `get_next_prayer`.  The Python code returns a
dict; the same-day branch carries no `"tomorrow"` key, which we model as
`tomorrow := false`. -/
structure NextPrayerInfo where
  prayer : String
  time : String
  minutes_until : ℤ
  hours_until : ℤ
  remaining_minutes : ℤ
  tomorrow : Bool
  deriving DecidableEq, Repr

/-- The fixed scan order of the six observable prayers
(`prayers = ["fajr", "sunrise", "dhuhr", "asr", "maghrib", "isha"]`). -/
def observablePrayers : List String :=
  ["fajr", "sunrise", "dhuhr", "asr", "maghrib", "isha"]

/-- Python `str.split(sep)` for a one-character separator, on the character
list of the string (`"".split(":") = [""]`, `"a:".split(":") = ["a", ""]`). -/
def splitChar (sep : Char) : List Char → List Char → List (List Char)
  | [], acc => [acc.reverse]
  | c :: cs, acc =>
    if c = sep then acc.reverse :: splitChar sep cs []
    else splitChar sep cs (c :: acc)

/-- Decimal-digit accumulation for `int()`: fails on the first non-digit. -/
def natOfDigitsAux : List Char → ℕ → Option ℕ
  | [], acc => some acc
  | c :: cs, acc =>
    if c.isDigit then natOfDigitsAux cs (acc * 10 + (c.toNat - '0'.toNat))
    else none

/-- A non-empty run of decimal digits, as a natural number. -/
def natOfDigits : List Char → Option ℕ
  | [] => none
  | cs => natOfDigitsAux cs 0

/-- Python `int(s)`: an optional sign followed by decimal digits; anything
else raises `ValueError`, modelled as `none`. -/
def intOfChars : List Char → Option ℤ
  | '-' :: rest => (natOfDigits rest).map fun n => -(n : ℤ)
  | '+' :: rest => (natOfDigits rest).map fun n => (n : ℤ)
  | cs => (natOfDigits cs).map fun n => (n : ℤ)

/-- Parsing of one time string: `hours, minutes = map(int, time_str.split(":"))`
followed by `hours * 60 + minutes`, with any `ValueError` (wrong number of
`:`-separated fields, or a field that is not an integer literal) mapped to
`none`. -/
def parseMinutes (s : String) : Option ℤ :=
  match splitChar ':' s.data [] with
  | [h, m] =>
    match intOfChars h, intOfChars m with
    | some hh, some mm => some (hh * 60 + mm)
    | _, _ => none
  | _ => none

/-- Association-list lookup modelling a Python dict access. -/
def dictFind (pt : List (String × String)) (k : String) : Option String :=
  match pt with
  | [] => none
  | (p, v) :: rest => if p = k then some v else dictFind rest k

/-- Defaulted dict access `prayer_times.get(prayer, "00:00")` on the
association-list model of the Python dict. -/
def dictGetD (pt : List (String × String)) (k : String) (d : String) : String :=
  (dictFind pt k).getD d

/-- Lines 487–494: build `prayer_minutes`, the `(prayer, total_minutes)` pairs
for every prayer whose time string parses (missing keys default to
`"00:00"`). -/
def prayerMinutes (pt : List (String × String)) : List (String × ℤ) :=
  observablePrayers.filterMap fun p =>
    (parseMinutes (dictGetD pt p "00:00")).map fun m => (p, m)

/-- Resolver `get_next_prayer` (lines 470–521) with the wall-clock value
`now.hour * 60 + now.minute` passed explicitly as `current`.  The bare
`prayer_times[prayer]` / `prayer_times["fajr"]` dict accesses are modelled by
`dictFind`, raising `keyError` when the key is absent. -/
def get_next_prayer (pt : List (String × String)) (current : ℤ) :
    Except RuntimeErr (Option NextPrayerInfo) :=
  let pm := prayerMinutes pt
  match pm.find? (fun q => decide (current < q.2)) with
  | some (p, m) =>
    match dictFind pt p with
    | some s =>
      .ok (some ⟨p, s, m - current, (m - current).fdiv 60,
                 (m - current).fmod 60, false⟩)
    | none => .error .keyError
  | none =>
    match pm with
    | [] => .ok none
    | (_, fm) :: _ =>
      match dictFind pt "fajr" with
      | some s =>
        .ok (some ⟨"fajr", s, (24 * 60 - current) + fm,
                   ((24 * 60 - current) + fm).fdiv 60,
                   ((24 * 60 - current) + fm).fmod 60, true⟩)
      | none => .error .keyError

/-- The worked example times map of the specification. -/
def exampleTimes : List (String × String) :=
  [("fajr", "05:00"), ("sunrise", "06:20"), ("dhuhr", "12:00"),
   ("asr", "15:30"), ("maghrib", "18:00"), ("isha", "19:30")]

deriving instance DecidableEq for Except

/-! ## Real-valued solar computations

Python machine floats are modelled by real numbers. -/

/-- Conversion `math.radians`. -/
noncomputable def radians (x : ℝ) : ℝ := x * Real.pi / 180

/-- Conversion `math.degrees`. -/
noncomputable def degrees (x : ℝ) : ℝ := x * 180 / Real.pi

/-- Function `math.atan2(y, x)`: the two-argument arctangent, with the IEEE
convention `atan2(0, 0) = 0` used by Python. -/
noncomputable def atan2 (y x : ℝ) : ℝ :=
  if 0 < x then Real.arctan (y / x)
  else if x < 0 then
    (if 0 ≤ y then Real.arctan (y / x) + Real.pi
     else Real.arctan (y / x) - Real.pi)
  else if 0 < y then Real.pi / 2
  else if y < 0 then -(Real.pi / 2)
  else 0

/-- One entry of `CALCULATION_METHODS`: the per-method parameter dict, whose
optional keys are modelled by `Option` fields. -/
structure MethodParams where
  name : String
  fajr_angle : Option ℝ
  isha_angle : Option ℝ
  isha_interval : Option ℤ
  maghrib_angle : Option ℝ

/-- The `"Egyptian"` entry, which is also the silent fallback used by
`calculate_prayer_times` for unknown method ids. -/
def EgyptianParams : MethodParams :=
  ⟨"Egyptian General Authority of Survey", some 19.5, some 17.5, none, none⟩

/-- Registry `CALCULATION_METHODS` (lines 20–72), as a partial map from
method id to parameters. -/
def CALCULATION_METHODS : String → Option MethodParams
  | "MuslimWorldLeague" => some ⟨"Muslim World League", some 18.0, some 17.0, none, none⟩
  | "Egyptian" => some EgyptianParams
  | "UmmAlQura" => some ⟨"Umm al-Qura University, Makkah", some 18.5, none, some 90, none⟩
  | "Karachi" => some ⟨"University of Islamic Sciences, Karachi", some 18.0, some 18.0, none, none⟩
  | "Jafari" => some ⟨"Shia Ithna-Ashari, Leva Institute, Qum", some 16.0, some 14.0, none, some 4.0⟩
  | "ISNA" => some ⟨"Islamic Society of North America", some 15.0, some 15.0, none, none⟩
  | "Turkey" => some ⟨"Diyanet İşleri Başkanlığı, Turkey", some 18.0, some 17.0, none, none⟩
  | "Kuwait" => some ⟨"Kuwait", some 18.0, some 17.5, none, none⟩
  | "Qatar" => some ⟨"Qatar", some 18.0, none, some 90, none⟩
  | "Singapore" => some ⟨"Singapore", some 20.0, some 18.0, none, none⟩
  | _ => none

/-- Julian date `_calculate_julian_date` (lines 213–235). -/
noncomputable def julian_date (year month day : ℤ) : ℝ :=
  let y : ℤ := if month ≤ 2 then year - 1 else year
  let m : ℤ := if month ≤ 2 then month + 12 else month
  let a : ℝ := (⌊(y : ℝ) / 100⌋ : ℤ)
  let b : ℝ := 2 - a + (⌊a / 4⌋ : ℤ)
  (⌊365.25 * ((y : ℝ) + 4716)⌋ : ℤ) + (⌊30.6001 * ((m : ℝ) + 1)⌋ : ℤ)
    + (day : ℝ) + b - 1524.5

/-- Solar declination `_sun_declination` (lines 237–254), in degrees. -/
noncomputable def sun_declination (jd : ℝ) : ℝ :=
  let d := jd - 2451545.0
  let g := 357.529 + 0.98560028 * d
  let q := 280.459 + 0.98564736 * d
  let L := q + 1.915 * Real.sin (radians g) + 0.020 * Real.sin (radians (2 * g))
  let e := 23.439 - 0.00000036 * d
  degrees (Real.arcsin (Real.sin (radians e) * Real.sin (radians L)))

/-- Equation of time `_equation_of_time` (lines 256–285), in minutes.  The
source also evaluates an unused expression `1.00014 - ...`, omitted here. -/
noncomputable def equation_of_time (jd : ℝ) : ℝ :=
  let d := jd - 2451545.0
  let g := 357.529 + 0.98560028 * d
  let q := 280.459 + 0.98564736 * d
  let L := q + 1.915 * Real.sin (radians g) + 0.020 * Real.sin (radians (2 * g))
  let RA := degrees (atan2 (Real.cos (radians 23.439) * Real.sin (radians L))
                           (Real.cos (radians L)))
  let EqT := q - RA
  let EqT := EqT - 360 * (⌊EqT / 360⌋ : ℤ)
  (if EqT > 180 then EqT - 360 else EqT) * 4

/-- Exceptions that the body of `_calculate_time` can raise: `ValueError`
from `math.acos` outside its domain, and `ZeroDivisionError`. -/
inductive CalcErr where
  | acosDomain
  | zeroDiv
  deriving DecidableEq, Repr

/-- Division, raising `ZeroDivisionError` on a zero denominator as Python
float division does. -/
noncomputable def divChecked (a b : ℝ) : Except CalcErr ℝ :=
  if b = 0 then .error .zeroDiv else .ok (a / b)

/-- Function `math.acos`, raising `ValueError` outside `[-1, 1]`. -/
noncomputable def acosChecked (x : ℝ) : Except CalcErr ℝ :=
  if -1 ≤ x ∧ x ≤ 1 then .ok (Real.arccos x) else .error .acosDomain

/-- The clamp of lines 307–311: `if cos_h > 1: cos_h = 1` /
`elif cos_h < -1: cos_h = -1`. -/
noncomputable def clampCos (c : ℝ) : ℝ :=
  if c > 1 then 1 else if c < -1 then -1 else c

/-- Solar noon expression `12 + timezone_offset - longitude/15 - eqt/60`,
shared by `_calculate_time` and the Dhuhr computation. -/
noncomputable def solarNoon (eqt longitude tz : ℝ) : ℝ :=
  12 + tz - longitude / 15 - eqt / 60

/-- Body of the `try:` block of `_calculate_time` (lines 302–330): division,
clamp, `acos`, and the choice of the morning (`noon - H`) or afternoon
(`noon + H`) side. -/
noncomputable def calculate_time_body (latitude declination angle eqt longitude tz : ℝ)
    (reverse : Bool) : Except CalcErr ℝ :=
  let lat_rad := radians latitude
  let dec_rad := radians declination
  let angle_rad := radians angle
  (divChecked (Real.cos angle_rad - Real.sin lat_rad * Real.sin dec_rad)
              (Real.cos lat_rad * Real.cos dec_rad)).bind fun cos_h =>
    (acosChecked (clampCos cos_h)).bind fun acos_val =>
      let hour_angle := degrees acos_val / 15
      let noon := solarNoon eqt longitude tz
      .ok (if reverse then noon + hour_angle else noon - hour_angle)

/-- Full `_calculate_time` (lines 287–334): the `try`/`except` wrapper
returns the default `12.0` when the body raises. -/
noncomputable def calculate_time (latitude declination angle eqt longitude tz : ℝ)
    (reverse : Bool) : ℝ :=
  match calculate_time_body latitude declination angle eqt longitude tz reverse with
  | .ok r => r
  | .error _ => 12.0

/-- Asr computation `_calculate_asr` (lines 336–364).  Only a zero shadow
divisor can raise inside its `try:` block (returning the default `15.0`);
`math.atan` and `_calculate_time` are total. -/
noncomputable def calculate_asr (latitude declination eqt longitude tz : ℝ)
    (factor : ℤ) : ℝ :=
  let lat_rad := radians latitude
  let dec_rad := radians declination
  let shadowLen := (factor : ℝ) + Real.tan |lat_rad - dec_rad|
  if shadowLen = 0 then 15.0
  else
    let angle := degrees (Real.arctan (1 / shadowLen))
    calculate_time latitude declination (90 - angle) eqt longitude tz true

/-- The decimal-hour prayer times of one day, keyed as in the `times` dict
(insertion order: fajr, sunrise, dhuhr, asr, maghrib, isha, imsak). -/
structure RawTimes where
  fajr : ℝ
  sunrise : ℝ
  dhuhr : ℝ
  asr : ℝ
  maghrib : ℝ
  isha : ℝ
  imsak : ℝ

/-- Lines 116–194 of `calculate_prayer_times`: the decimal-hour times for
one method's parameters, before adjustments and formatting. -/
noncomputable def raw_times (p : MethodParams) (latitude longitude declination eqt tz : ℝ) :
    RawTimes :=
  let fajr := calculate_time latitude declination (90 + p.fajr_angle.getD 18.0)
                eqt longitude tz false
  let sunrise := calculate_time latitude declination 90.833 eqt longitude tz false
  let dhuhr := 12 + tz - longitude / 15 - eqt / 60
  let asr := calculate_asr latitude declination eqt longitude tz 1
  let maghrib := match p.maghrib_angle with
    | some a => calculate_time latitude declination (90 + a) eqt longitude tz false
    | none => calculate_time latitude declination 90.833 eqt longitude tz true
  let isha := match p.isha_interval with
    | some i => maghrib + (i : ℝ) / 60
    | none => calculate_time latitude declination (90 + p.isha_angle.getD 17.0)
                eqt longitude tz true
  let imsak := fajr - 10 / 60
  ⟨fajr, sunrise, dhuhr, asr, maghrib, isha, imsak⟩

/-- Manual adjustment loop (lines 196–199): each present key shifts its
prayer by `adjustment / 60` hours.  Keys absent from the Python dict are the
zero values of `adj`. -/
noncomputable def applyAdjustments (adj : String → ℤ) (t : RawTimes) : RawTimes :=
  ⟨t.fajr + (adj "fajr" : ℝ) / 60,
   t.sunrise + (adj "sunrise" : ℝ) / 60,
   t.dhuhr + (adj "dhuhr" : ℝ) / 60,
   t.asr + (adj "asr" : ℝ) / 60,
   t.maghrib + (adj "maghrib" : ℝ) / 60,
   t.isha + (adj "isha" : ℝ) / 60,
   t.imsak + (adj "imsak" : ℝ) / 60⟩

/-- Python float modulo `x % y` for positive `y`. -/
noncomputable def pymod (x y : ℝ) : ℝ := x - y * (⌊x / y⌋ : ℤ)

/-- Hour component of `_format_time`: `int(time_value % 24)`.  The operand
lies in `[0, 24)`, where Python `int()` truncation agrees with the floor. -/
noncomputable def format_hh (t : ℝ) : ℤ := ⌊pymod t 24⌋

/-- Minute component of `_format_time`: `int((time_value - hours) * 60)`. -/
noncomputable def format_mm (t : ℝ) : ℤ :=
  ⌊(pymod t 24 - (⌊pymod t 24⌋ : ℤ)) * 60⌋

/-- Zero-padded rendering `f"{n:02d}"` for the non-negative components used
here. -/
def pad2 (n : ℤ) : String := if n < 10 then "0" ++ toString n else toString n

/-- Formatter `_format_time` (lines 366–375). -/
noncomputable def format_time (t : ℝ) : String :=
  pad2 (format_hh t) ++ ":" ++ pad2 (format_mm t)

/-- The formatted `"HH:MM"` times of the result dict, in insertion order. -/
structure FormattedTimes where
  fajr : String
  sunrise : String
  dhuhr : String
  asr : String
  maghrib : String
  isha : String
  imsak : String

/-- The result record of `calculate_prayer_times` (lines 206–211), with the
ISO date string represented by the year/month/day triple. -/
structure PrayerResult where
  year : ℤ
  month : ℤ
  day : ℤ
  method : String
  latitude : ℝ
  longitude : ℝ
  times : FormattedTimes

/-- The adjusted decimal-hour times computed inside `calculate_prayer_times`
for a given method id, just before formatting. -/
noncomputable def adjusted_times (latitude longitude : ℝ) (year month day : ℤ)
    (method : String) (tz : ℝ) (adj : String → ℤ) : RawTimes :=
  let p := (CALCULATION_METHODS method).getD EgyptianParams
  let jd := julian_date year month day
  let decl := sun_declination jd
  let eqt := equation_of_time jd
  applyAdjustments adj (raw_times p latitude longitude decl eqt tz)

/-- Pipeline `calculate_prayer_times` (lines 77–211): method resolution with
the silent `"Egyptian"` fallback, ephemeris, per-prayer times, adjustments,
formatting. -/
noncomputable def calculate_prayer_times (latitude longitude : ℝ) (year month day : ℤ)
    (method : String) (tz : ℝ) (adj : String → ℤ) : PrayerResult :=
  let t := adjusted_times latitude longitude year month day method tz adj
  ⟨year, month, day, method, latitude, longitude,
   ⟨format_time t.fajr, format_time t.sunrise, format_time t.dhuhr,
    format_time t.asr, format_time t.maghrib, format_time t.isha,
    format_time t.imsak⟩⟩

/-- The result record of `get_qibla_direction` (lines 600–604). -/
structure QiblaResult where
  qibla_direction : ℝ
  distance_km : ℝ
  kaaba_latitude : ℝ
  kaaba_longitude : ℝ

/-- Python `round(x, 2)`.  Ties (exact multiples of `0.005`) round to even
in Python; no tie arises in the facts proved below, where the rounded value
is exact. -/
noncomputable def roundTo2 (x : ℝ) : ℝ := ((round (x * 100) : ℤ) : ℝ) / 100

/-- Qibla bearing and haversine distance `get_qibla_direction`
(lines 558–604). -/
noncomputable def get_qibla_direction (latitude longitude : ℝ) : QiblaResult :=
  let kaaba_lat : ℝ := 21.4225
  let kaaba_lon : ℝ := 39.8262
  let lat1 := radians latitude
  let lon1 := radians longitude
  let lat2 := radians kaaba_lat
  let lon2 := radians kaaba_lon
  let delta_lon := lon2 - lon1
  let y := Real.sin delta_lon * Real.cos lat2
  let x := Real.cos lat1 * Real.sin lat2
    - Real.sin lat1 * Real.cos lat2 * Real.cos delta_lon
  let bearing := pymod (degrees (atan2 y x) + 360) 360
  let a := Real.sin ((lat2 - lat1) / 2) ^ 2
    + Real.cos lat1 * Real.cos lat2 * Real.sin (delta_lon / 2) ^ 2
  let c := 2 * atan2 (Real.sqrt a) (Real.sqrt (1 - a))
  let distance := 6371 * c
  ⟨roundTo2 bearing, roundTo2 distance, kaaba_lat, kaaba_lon⟩

/-! ## Spec-side definitions

These follow the specification's words, for comparison with the embedded
source functions. -/

/-- Modelled from the spec: for a method defining `maghrib_angle`, Maghrib is
`noon + H(angle = 90 + maghrib_angle)` — the afternoon side of noon, i.e. the
same hour-angle computation as the source but with the afternoon sign. -/
noncomputable def spec_maghrib_time (latitude declination maghribAngle eqt longitude tz : ℝ) : ℝ :=
  calculate_time latitude declination (90 + maghribAngle) eqt longitude tz true

/-- Modelled from the spec: format a decimal-hour value by normalizing into
`[0, 24)`, truncating to the integer hour, and rounding the fractional
remainder to the nearest minute. -/
noncomputable def spec_format_time_rounding (t : ℝ) : String :=
  let u := pymod t 24
  pad2 ⌊u⌋ ++ ":" ++ pad2 (round ((u - (⌊u⌋ : ℤ)) * 60))

/-- Modelled from the spec: the first prayer, in the fixed order fajr,
sunrise, dhuhr, asr, maghrib, isha, whose minute value exceeds the current
minutes-since-midnight. -/
def firstUpcoming (current mf ms md ma mg mi : ℤ) : Option (String × ℤ) :=
  if current < mf then some ("fajr", mf)
  else if current < ms then some ("sunrise", ms)
  else if current < md then some ("dhuhr", md)
  else if current < ma then some ("asr", ma)
  else if current < mg then some ("maghrib", mg)
  else if current < mi then some ("isha", mi)
  else none

/-- The numerator-over-denominator `cos_h` expression of `_calculate_time`
(line 303), before clamping. -/
noncomputable def cosH (latitude declination angle : ℝ) : ℝ :=
  (Real.cos (radians angle) - Real.sin (radians latitude) * Real.sin (radians declination)) /
    (Real.cos (radians latitude) * Real.cos (radians declination))

/-- Minutes-since-midnight displayed by the formatted `"HH:MM"` string of a
decimal-hour value: sixty times the hour component plus the minute
component. -/
noncomputable def dispMin (t : ℝ) : ℤ := 60 * format_hh t + format_mm t

example : parseMinutes "05:00" = some 300 := by decide
example : parseMinutes "" = none := by decide
example : get_next_prayer exampleTimes 780 =
    .ok (some ⟨"asr", "15:30", 150, 2, 30, false⟩) := by decide
example : get_next_prayer exampleTimes 1200 =
    .ok (some ⟨"fajr", "05:00", 540, 9, 0, true⟩) := by decide

/-! ## Theorems -/

/-- With all six prayers present and parseable, `prayer_minutes` is exactly
the six `(name, minutes)` pairs in scan order. -/
theorem prayerMinutes_all_present
    (pt : List (String × String))
    (sf ss sd sa sm si : String) (mf ms md ma mg mi : ℤ)
    (hfl : dictFind pt "fajr" = some sf) (hfp : parseMinutes sf = some mf)
    (hsl : dictFind pt "sunrise" = some ss) (hsp : parseMinutes ss = some ms)
    (hdl : dictFind pt "dhuhr" = some sd) (hdp : parseMinutes sd = some md)
    (hal : dictFind pt "asr" = some sa) (hap : parseMinutes sa = some ma)
    (hml : dictFind pt "maghrib" = some sm) (hmp : parseMinutes sm = some mg)
    (hil : dictFind pt "isha" = some si) (hip : parseMinutes si = some mi) :
    prayerMinutes pt = [("fajr", mf), ("sunrise", ms), ("dhuhr", md),
                        ("asr", ma), ("maghrib", mg), ("isha", mi)] := by
  simp [prayerMinutes, observablePrayers, dictGetD,
        hfl, hsl, hdl, hal, hml, hil, hfp, hsp, hdp, hap, hmp, hip]

/-- C5: when the times map contains the six observable prayers and none of
their minute values exceeds the current minutes-since-midnight,
`get_next_prayer` returns Fajr for tomorrow with
`minutes_until = (1440 - now) + fajrMinutes`. -/
theorem next_prayer_wraparound
    (pt : List (String × String)) (current : ℤ)
    (sf ss sd sa sm si : String) (mf ms md ma mg mi : ℤ)
    (hfl : dictFind pt "fajr" = some sf) (hfp : parseMinutes sf = some mf)
    (hsl : dictFind pt "sunrise" = some ss) (hsp : parseMinutes ss = some ms)
    (hdl : dictFind pt "dhuhr" = some sd) (hdp : parseMinutes sd = some md)
    (hal : dictFind pt "asr" = some sa) (hap : parseMinutes sa = some ma)
    (hml : dictFind pt "maghrib" = some sm) (hmp : parseMinutes sm = some mg)
    (hil : dictFind pt "isha" = some si) (hip : parseMinutes si = some mi)
    (h1 : mf ≤ current) (h2 : ms ≤ current) (h3 : md ≤ current)
    (h4 : ma ≤ current) (h5 : mg ≤ current) (h6 : mi ≤ current) :
    get_next_prayer pt current =
      .ok (some ⟨"fajr", sf, (24 * 60 - current) + mf,
                 ((24 * 60 - current) + mf).fdiv 60,
                 ((24 * 60 - current) + mf).fmod 60, true⟩) := by
  have hpm := prayerMinutes_all_present pt sf ss sd sa sm si mf ms md ma mg mi
    hfl hfp hsl hsp hdl hdp hal hap hml hmp hil hip
  unfold get_next_prayer
  rw [hpm]
  simp [List.find?, decide_eq_false (not_lt.2 h1), decide_eq_false (not_lt.2 h2),
        decide_eq_false (not_lt.2 h3), decide_eq_false (not_lt.2 h4),
        decide_eq_false (not_lt.2 h5), decide_eq_false (not_lt.2 h6), hfl]

/-- C5 witness: the spec's worked example — times
fajr 05:00, sunrise 06:20, dhuhr 12:00, asr 15:30, maghrib 18:00,
isha 19:30, current time 20:00 — yields Fajr, tomorrow, 540 minutes. -/
theorem next_prayer_wraparound_witness :
    get_next_prayer exampleTimes 1200 =
      .ok (some ⟨"fajr", "05:00", ((24 : ℤ) * 60 - 1200) + 300,
                 (((24 : ℤ) * 60 - 1200) + 300).fdiv 60,
                 (((24 : ℤ) * 60 - 1200) + 300).fmod 60, true⟩) :=
  next_prayer_wraparound exampleTimes 1200 "05:00" "06:20" "12:00" "15:30"
    "18:00" "19:30" 300 380 720 930 1080 1170
    rfl (by decide) rfl (by decide) rfl (by decide) rfl (by decide)
    rfl (by decide) rfl (by decide)
    (by decide) (by decide) (by decide) (by decide) (by decide) (by decide)

/-- C6: when the times map contains the six observable prayers and at least
one minute value exceeds the current minutes-since-midnight,
`get_next_prayer` returns the first such prayer in the fixed order, with
`minutes_until = prayerMinutes - now` and no tomorrow flag. -/
theorem next_prayer_same_day
    (pt : List (String × String)) (current : ℤ)
    (sf ss sd sa sm si : String) (mf ms md ma mg mi : ℤ)
    (hfl : dictFind pt "fajr" = some sf) (hfp : parseMinutes sf = some mf)
    (hsl : dictFind pt "sunrise" = some ss) (hsp : parseMinutes ss = some ms)
    (hdl : dictFind pt "dhuhr" = some sd) (hdp : parseMinutes sd = some md)
    (hal : dictFind pt "asr" = some sa) (hap : parseMinutes sa = some ma)
    (hml : dictFind pt "maghrib" = some sm) (hmp : parseMinutes sm = some mg)
    (hil : dictFind pt "isha" = some si) (hip : parseMinutes si = some mi)
    (hex : current < mf ∨ current < ms ∨ current < md ∨ current < ma ∨
           current < mg ∨ current < mi) :
    ∃ p m s, firstUpcoming current mf ms md ma mg mi = some (p, m) ∧
      dictFind pt p = some s ∧
      get_next_prayer pt current =
        .ok (some ⟨p, s, m - current, (m - current).fdiv 60,
                   (m - current).fmod 60, false⟩) := by
  have hpm := prayerMinutes_all_present pt sf ss sd sa sm si mf ms md ma mg mi
    hfl hfp hsl hsp hdl hdp hal hap hml hmp hil hip
  by_cases c1 : current < mf
  · refine ⟨"fajr", mf, sf, by simp [firstUpcoming, c1], hfl, ?_⟩
    unfold get_next_prayer
    rw [hpm]
    simp [List.find?, decide_eq_true c1, hfl]
  by_cases c2 : current < ms
  · refine ⟨"sunrise", ms, ss, by simp [firstUpcoming, c1, c2], hsl, ?_⟩
    unfold get_next_prayer
    rw [hpm]
    simp [List.find?, decide_eq_false c1, decide_eq_true c2, hsl]
  by_cases c3 : current < md
  · refine ⟨"dhuhr", md, sd, by simp [firstUpcoming, c1, c2, c3], hdl, ?_⟩
    unfold get_next_prayer
    rw [hpm]
    simp [List.find?, decide_eq_false c1, decide_eq_false c2,
          decide_eq_true c3, hdl]
  by_cases c4 : current < ma
  · refine ⟨"asr", ma, sa, by simp [firstUpcoming, c1, c2, c3, c4], hal, ?_⟩
    unfold get_next_prayer
    rw [hpm]
    simp [List.find?, decide_eq_false c1, decide_eq_false c2,
          decide_eq_false c3, decide_eq_true c4, hal]
  by_cases c5 : current < mg
  · refine ⟨"maghrib", mg, sm, by simp [firstUpcoming, c1, c2, c3, c4, c5], hml, ?_⟩
    unfold get_next_prayer
    rw [hpm]
    simp [List.find?, decide_eq_false c1, decide_eq_false c2,
          decide_eq_false c3, decide_eq_false c4, decide_eq_true c5, hml]
  have c6 : current < mi := by tauto
  refine ⟨"isha", mi, si, by simp [firstUpcoming, c1, c2, c3, c4, c5, c6], hil, ?_⟩
  unfold get_next_prayer
  rw [hpm]
  simp [List.find?, decide_eq_false c1, decide_eq_false c2,
        decide_eq_false c3, decide_eq_false c4, decide_eq_false c5,
        decide_eq_true c6, hil]

/-- C6 witness: the spec's worked example at 13:00 (780 minutes) — the first
prayer exceeding 780 is Asr at 930, returned with 150 minutes to go and no
tomorrow flag. -/
theorem next_prayer_same_day_witness :
    ∃ p m s, firstUpcoming 780 300 380 720 930 1080 1170 = some (p, m) ∧
      dictFind exampleTimes p = some s ∧
      get_next_prayer exampleTimes 780 =
        .ok (some ⟨p, s, m - 780, (m - 780).fdiv 60, (m - 780).fmod 60, false⟩) :=
  next_prayer_same_day exampleTimes 780 "05:00" "06:20" "12:00" "15:30"
    "18:00" "19:30" 300 380 720 930 1080 1170
    rfl (by decide) rfl (by decide) rfl (by decide) rfl (by decide)
    rfl (by decide) rfl (by decide)
    (by decide)

/-- C10: on a completely empty times map, `get_next_prayer` does not return
`None`; every prayer defaults to `"00:00"` (0 minutes, never in the future),
so the tomorrow branch is reached and the bare `prayer_times["fajr"]` access
raises `KeyError`. -/
theorem next_prayer_empty_map_raises :
    get_next_prayer [] 720 = .error .keyError := by decide

/-- C2 counterexample: `"NotAMethod"` is not in the registry, yet
`calculate_prayer_times` raises nothing and returns the very times the
Egyptian parameters produce — the lookup falls back silently. -/
theorem unknown_method_no_error :
    CALCULATION_METHODS "NotAMethod" = none ∧
    (calculate_prayer_times 30 31 2024 3 20 "NotAMethod" 2 (fun _ => 0)).times =
      (calculate_prayer_times 30 31 2024 3 20 "Egyptian" 2 (fun _ => 0)).times :=
  ⟨rfl, rfl⟩

/-- C2 amended: for any methodId absent from the registry,
`calculate_prayer_times` performs the full computation with the Egyptian
method's parameters instead of raising. -/
theorem unknown_method_egyptian_fallback (lat lon : ℝ) (y mo d : ℤ) (tz : ℝ)
    (adj : String → ℤ) (method : String)
    (h : CALCULATION_METHODS method = none) :
    (calculate_prayer_times lat lon y mo d method tz adj).times =
      (calculate_prayer_times lat lon y mo d "Egyptian" tz adj).times := by
  unfold calculate_prayer_times adjusted_times
  rw [h, show CALCULATION_METHODS "Egyptian" = some EgyptianParams from rfl]
  simp only [Option.getD_none, Option.getD_some]

/-- C2 amended witness: the fallback theorem applied to the concrete method
id `"AnotherFake"` at Cairo-like coordinates. -/
theorem unknown_method_egyptian_fallback_witness :
    CALCULATION_METHODS "AnotherFake" = none ∧
    (calculate_prayer_times 10 20 2025 7 1 "AnotherFake" 3 (fun _ => 0)).times =
      (calculate_prayer_times 10 20 2025 7 1 "Egyptian" 3 (fun _ => 0)).times :=
  ⟨rfl, unknown_method_egyptian_fallback 10 20 2025 7 1 3 (fun _ => 0)
    "AnotherFake" rfl⟩

/-- At the equator with zero declination, the hour angle for zenith angle
94° is strictly positive: the 94° zenith circle is crossed away from noon. -/
theorem arccos_cos_radians94_pos : 0 < Real.arccos (Real.cos (radians 94)) := by
  apply Real.arccos_pos.mpr
  have hpi := Real.pi_pos
  have h1 : Real.cos (radians 94) ≤ 0 := by
    apply Real.cos_nonpos_of_pi_div_two_le_of_le
    · unfold radians
      nlinarith
    · unfold radians
      nlinarith
  linarith

/-- Evaluation of `_calculate_time` at latitude 0, declination 0, zenith
angle 94°, zero equation of time, longitude and offset: noon is 12 and the
hour angle is `arccos (cos 94°)` degrees over 15. -/
theorem calculate_time_origin (rev : Bool) :
    calculate_time 0 0 94 0 0 0 rev
      = if rev then 12 + degrees (Real.arccos (Real.cos (radians 94))) / 15
        else 12 - degrees (Real.arccos (Real.cos (radians 94))) / 15 := by
  have hr0 : radians 0 = 0 := by
    unfold radians
    ring
  have hcl : clampCos (Real.cos (radians 94)) = Real.cos (radians 94) := by
    unfold clampCos
    rw [if_neg (not_lt.2 (Real.cos_le_one _)), if_neg (not_lt.2 (Real.neg_one_le_cos _))]
  unfold calculate_time calculate_time_body divChecked acosChecked
  dsimp only
  rw [hr0, Real.cos_zero, Real.sin_zero]
  rw [if_neg (by norm_num : ¬((1 : ℝ) * 1 = 0))]
  simp only [Except.bind]
  rw [show (Real.cos (radians 94) - 0 * 0) / (1 * 1) = Real.cos (radians 94) from by
    norm_num]
  rw [hcl]
  rw [if_pos ⟨Real.neg_one_le_cos _, Real.cos_le_one _⟩]
  unfold solarNoon
  cases rev <;> norm_num

/-- C1: the maghrib-angle branch of `calculate_prayer_times` omits
`reverse=True`, so for the Jafari method the code computes Maghrib as
`noon - H(94°)` — strictly before solar noon — while the hour-angle value
the claim specifies, `noon + H(94°)`, lies strictly after noon.  Evaluated
at latitude 0, declination 0, equation of time 0, longitude 0, offset 0. -/
theorem jafari_maghrib_on_wrong_side :
    (raw_times ((CALCULATION_METHODS "Jafari").getD EgyptianParams) 0 0 0 0 0).maghrib
        < solarNoon 0 0 0 ∧
    solarNoon 0 0 0 < spec_maghrib_time 0 0 4.0 0 0 0 ∧
    (raw_times ((CALCULATION_METHODS "Jafari").getD EgyptianParams) 0 0 0 0 0).maghrib
        ≠ spec_maghrib_time 0 0 4.0 0 0 0 := by
  have hraw : (raw_times ((CALCULATION_METHODS "Jafari").getD EgyptianParams) 0 0 0 0 0).maghrib
      = calculate_time 0 0 94 0 0 0 false := by
    show calculate_time 0 0 (90 + 4.0) 0 0 0 false = _
    norm_num
  have hspec : spec_maghrib_time 0 0 4.0 0 0 0 = calculate_time 0 0 94 0 0 0 true := by
    unfold spec_maghrib_time
    norm_num
  have hH : 0 < degrees (Real.arccos (Real.cos (radians 94))) / 15 := by
    unfold degrees
    have h1 := arccos_cos_radians94_pos
    have hpi := Real.pi_pos
    positivity
  have hno : solarNoon 0 0 0 = 12 := by
    unfold solarNoon
    norm_num
  rw [hraw, hspec, calculate_time_origin, calculate_time_origin, hno]
  refine ⟨by simp only [Bool.false_eq_true, if_false]; linarith,
          by simp only [if_true]; linarith,
          by simp only [Bool.false_eq_true, if_false, if_true]; intro h; linarith⟩

/-- Two-argument arctangent of the degenerate pair (0, 0), as Python
returns it. -/
theorem atan2_zero_zero : atan2 0 0 = 0 := by
  unfold atan2
  norm_num

/-- Two-argument arctangent on the positive x-axis. -/
theorem atan2_zero_one : atan2 0 1 = 0 := by
  unfold atan2
  norm_num

/-- C9: at the Kaaba's own coordinates the qibla bearing is 0 degrees (the
degenerate `atan2(0, 0) = 0` convention) and the haversine distance is
exactly 0 km. -/
theorem qibla_at_kaaba :
    (get_qibla_direction 21.4225 39.8262).qibla_direction = 0 ∧
    (get_qibla_direction 21.4225 39.8262).distance_km = 0 := by
  have hr : roundTo2 0 = 0 := by
    unfold roundTo2
    norm_num
  have hp : pymod 360 360 = 0 := by
    unfold pymod
    rw [show (360 : ℝ) / 360 = 1 from by norm_num, Int.floor_one]
    norm_num
  have hd0 : degrees 0 = 0 := by
    unfold degrees
    ring
  unfold get_qibla_direction
  dsimp only
  simp only [sub_self, Real.sin_zero, Real.cos_zero, mul_one, mul_zero, zero_mul]
  rw [show Real.cos (radians 21.4225) * Real.sin (radians 21.4225)
      - Real.sin (radians 21.4225) * Real.cos (radians 21.4225) = 0 from by ring]
  rw [atan2_zero_zero, hd0]
  rw [show (0 : ℝ) + 360 = 360 from by norm_num, hp]
  simp only [zero_div, Real.sin_zero, zero_pow, zero_mul, add_zero, zero_add,
             ne_eq, OfNat.ofNat_ne_zero, not_false_eq_true, mul_zero]
  rw [Real.sqrt_zero, show (1 : ℝ) - 0 = 1 from by norm_num, Real.sqrt_one]
  rw [atan2_zero_one]
  norm_num [hr]

/-- The clamp of `_calculate_time` always lands in the domain of `acos`. -/
theorem clampCos_mem (c : ℝ) : -1 ≤ clampCos c ∧ clampCos c ≤ 1 := by
  unfold clampCos
  split_ifs with h1 h2
  · norm_num
  · norm_num
  · push_neg at h1 h2
    exact ⟨h2, h1⟩

/-- C3: for all finite inputs, the clamped `acos` argument lies in `[-1, 1]`
(so the `acos` domain-error branch is unreachable), and `_calculate_time`
always returns a decimal-hour value — the body's value, or the `12.0`
fallback when the division raises `ZeroDivisionError`. -/
theorem calculate_time_never_raises (lat dec angle eqt lon tz : ℝ) (rev : Bool) :
    (-1 ≤ clampCos (cosH lat dec angle) ∧ clampCos (cosH lat dec angle) ≤ 1) ∧
    calculate_time_body lat dec angle eqt lon tz rev ≠ Except.error CalcErr.acosDomain ∧
    (calculate_time_body lat dec angle eqt lon tz rev
        = Except.ok (calculate_time lat dec angle eqt lon tz rev) ∨
      calculate_time lat dec angle eqt lon tz rev = 12) := by
  obtain ⟨hlo, hhi⟩ := clampCos_mem (cosH lat dec angle)
  by_cases hden : Real.cos (radians lat) * Real.cos (radians dec) = 0
  · have hbody : calculate_time_body lat dec angle eqt lon tz rev
        = Except.error CalcErr.zeroDiv := by
      unfold calculate_time_body divChecked
      dsimp only
      rw [if_pos hden]
      rfl
    refine ⟨⟨hlo, hhi⟩, ?_, ?_⟩
    · rw [hbody]
      simp
    · right
      unfold calculate_time
      rw [hbody]
      norm_num
  · have hbody : calculate_time_body lat dec angle eqt lon tz rev
        = Except.ok
            (if rev then
              solarNoon eqt lon tz + degrees (Real.arccos (clampCos (cosH lat dec angle))) / 15
             else
              solarNoon eqt lon tz - degrees (Real.arccos (clampCos (cosH lat dec angle))) / 15) := by
      unfold calculate_time_body divChecked acosChecked cosH
      dsimp only
      rw [if_neg hden]
      simp only [Except.bind]
      rw [if_pos (show -1 ≤ clampCos ((Real.cos (radians angle)
            - Real.sin (radians lat) * Real.sin (radians dec))
            / (Real.cos (radians lat) * Real.cos (radians dec)))
          ∧ clampCos ((Real.cos (radians angle)
            - Real.sin (radians lat) * Real.sin (radians dec))
            / (Real.cos (radians lat) * Real.cos (radians dec))) ≤ 1
          from ⟨hlo, hhi⟩)]
    refine ⟨⟨hlo, hhi⟩, ?_, ?_⟩
    · rw [hbody]
      simp
    · left
      rw [hbody]
      unfold calculate_time
      rw [hbody]

/-- The Python float modulo by a positive modulus is non-negative. -/
theorem pymod_nonneg (x : ℝ) {y : ℝ} (hy : 0 < y) : 0 ≤ pymod x y := by
  unfold pymod
  have h1 : ((⌊x / y⌋ : ℤ) : ℝ) ≤ x / y := Int.floor_le _
  have h2 : y * ((⌊x / y⌋ : ℤ) : ℝ) ≤ y * (x / y) := by nlinarith
  have h3 : x / y * y = x := div_mul_cancel₀ x (ne_of_gt hy)
  nlinarith

/-- The Python float modulo is below its positive modulus. -/
theorem pymod_lt (x : ℝ) {y : ℝ} (hy : 0 < y) : pymod x y < y := by
  unfold pymod
  have h1 : x / y < ((⌊x / y⌋ : ℤ) : ℝ) + 1 := Int.lt_floor_add_one _
  have h2 : x / y * y < (((⌊x / y⌋ : ℤ) : ℝ) + 1) * y := by nlinarith
  have h3 : x / y * y = x := div_mul_cancel₀ x (ne_of_gt hy)
  nlinarith

/-- The minute component is the total displayed minutes minus sixty times
the hour component. -/
theorem format_mm_eq (t : ℝ) :
    format_mm t = ⌊60 * pymod t 24⌋ - 60 * format_hh t := by
  unfold format_mm format_hh
  have h : (pymod t 24 - ((⌊pymod t 24⌋ : ℤ) : ℝ)) * 60
      = 60 * pymod t 24 - ((60 * ⌊pymod t 24⌋ : ℤ) : ℝ) := by
    push_cast
    ring
  rw [h, Int.floor_sub_int]

/-- The displayed minutes-since-midnight equal the floor of sixty times the
normalized decimal hour. -/
theorem dispMin_pymod (t : ℝ) : dispMin t = ⌊60 * pymod t 24⌋ := by
  unfold dispMin
  rw [format_mm_eq]
  ring

/-- Shifting a decimal-hour value by an integer number of minutes shifts the
displayed minutes by the same amount, modulo the 1440 minutes of a day. -/
theorem dispMin_mod (F : ℝ) (a : ℤ) :
    dispMin (F + (a : ℝ) / 60) % 1440 = (⌊60 * F⌋ + a) % 1440 := by
  rw [dispMin_pymod]
  have h1 : 60 * pymod (F + (a : ℝ) / 60) 24
      = 60 * (F + (a : ℝ) / 60) - ((1440 * ⌊(F + (a : ℝ) / 60) / 24⌋ : ℤ) : ℝ) := by
    unfold pymod
    push_cast
    ring
  rw [h1, Int.floor_sub_int]
  have h2 : 60 * (F + (a : ℝ) / 60) = 60 * F + (a : ℝ) := by ring
  rw [h2, Int.floor_add_int]
  omega

/-- Two integer-minute shifts of the same decimal hour display a
minutes-difference equal to the shift difference, modulo 1440. -/
theorem dispMin_gap (F : ℝ) (a b : ℤ) :
    (dispMin (F + (a : ℝ) / 60) - dispMin (F + (b : ℝ) / 60)) % 1440
      = (a - b) % 1440 := by
  have h1 := dispMin_mod F a
  have h2 := dispMin_mod F b
  omega

/-- C4 amended: the formatter normalizes into `[0, 24)` via modulo 24, takes
the integer part as the hour, and truncates (not rounds) the fractional
remainder to the minute below: the displayed `h`, `m` satisfy
`60 * h + m = ⌊60 * (t mod 24)⌋` with `0 ≤ h < 24` and `0 ≤ m < 60`. -/
theorem format_time_truncates (t : ℝ) :
    0 ≤ pymod t 24 ∧ pymod t 24 < 24 ∧
    0 ≤ format_hh t ∧ format_hh t < 24 ∧
    0 ≤ format_mm t ∧ format_mm t < 60 ∧
    60 * format_hh t + format_mm t = ⌊60 * pymod t 24⌋ := by
  have h0 := pymod_nonneg t (show (0 : ℝ) < 24 by norm_num)
  have h1 := pymod_lt t (show (0 : ℝ) < 24 by norm_num)
  refine ⟨h0, h1, ?_, ?_, ?_, ?_, ?_⟩
  · exact Int.le_floor.mpr (by exact_mod_cast h0)
  · exact Int.floor_lt.mpr (by exact_mod_cast h1)
  · unfold format_mm
    apply Int.le_floor.mpr
    push_cast
    nlinarith [Int.floor_le (pymod t 24)]
  · unfold format_mm
    apply Int.floor_lt.mpr
    push_cast
    nlinarith [Int.lt_floor_add_one (pymod t 24)]
  · rw [format_mm_eq]
    ring

/-- C4 counterexample: at 0.015 decimal hours (0.9 minutes past midnight)
the source formatter truncates to `"00:00"`, while the rounding formatter of
the spec's words produces `"00:01"` — the fractional 0.9 minute does not
round up. -/
theorem format_time_truncates_cex :
    format_time (3 / 200 : ℝ) = "00:00" ∧
    spec_format_time_rounding (3 / 200 : ℝ) = "00:01" ∧
    format_time (3 / 200 : ℝ) ≠ spec_format_time_rounding (3 / 200 : ℝ) := by
  have hm : pymod (3 / 200 : ℝ) 24 = 3 / 200 := by
    unfold pymod
    norm_num
  have hfl : ⌊(3 / 200 : ℝ)⌋ = 0 := by
    norm_num
  have hh : format_hh (3 / 200 : ℝ) = 0 := by
    unfold format_hh
    rw [hm, hfl]
  have hmm : format_mm (3 / 200 : ℝ) = 0 := by
    unfold format_mm
    rw [hm, hfl]
    norm_num
  have h1 : format_time (3 / 200 : ℝ) = "00:00" := by
    unfold format_time
    rw [hh, hmm]
    rfl
  have h2 : spec_format_time_rounding (3 / 200 : ℝ) = "00:01" := by
    unfold spec_format_time_rounding
    dsimp only
    rw [hm, hfl]
    norm_num [round_eq]
    rfl
  exact ⟨h1, h2, by rw [h1, h2]; decide⟩

/-- Both the fajr and imsak entries of the adjusted times are integer-minute
shifts of the same raw Fajr value: imsak is built as fajr minus 10 minutes
before the per-prayer adjustments are added. -/
theorem adjusted_imsak_fajr (lat lon : ℝ) (y mo d : ℤ) (method : String)
    (tz : ℝ) (adj : String → ℤ) :
    ∃ F : ℝ,
      (adjusted_times lat lon y mo d method tz adj).fajr
        = F + ((adj "fajr" : ℤ) : ℝ) / 60 ∧
      (adjusted_times lat lon y mo d method tz adj).imsak
        = F + ((adj "imsak" - 10 : ℤ) : ℝ) / 60 := by
  refine ⟨(raw_times ((CALCULATION_METHODS method).getD EgyptianParams) lat lon
      (sun_declination (julian_date y mo d))
      (equation_of_time (julian_date y mo d)) tz).fajr, rfl, ?_⟩
  show (raw_times ((CALCULATION_METHODS method).getD EgyptianParams) lat lon
      (sun_declination (julian_date y mo d))
      (equation_of_time (julian_date y mo d)) tz).fajr - 10 / 60
    + ((adj "imsak" : ℤ) : ℝ) / 60 = _
  push_cast
  ring

/-- C7 counterexample: with an adjustments map shifting fajr by +30 minutes
and imsak by nothing, the formatted gap is 40 minutes (mod 1440), not 10. -/
theorem imsak_fajr_gap_cex :
    dispMin ((adjusted_times 30 31 2024 3 20 "Egyptian" 2
        (fun p => if p = "fajr" then 30 else 0)).fajr)
      - dispMin ((adjusted_times 30 31 2024 3 20 "Egyptian" 2
        (fun p => if p = "fajr" then 30 else 0)).imsak) ≠ 10 := by
  obtain ⟨F, hf, hi⟩ := adjusted_imsak_fajr 30 31 2024 3 20 "Egyptian" 2
    (fun p => if p = "fajr" then 30 else 0)
  rw [show (if ("fajr" : String) = "fajr" then (30 : ℤ) else 0) = 30
      from by decide] at hf
  rw [show (if ("imsak" : String) = "fajr" then (30 : ℤ) else 0) - 10 = (-10 : ℤ)
      from by decide] at hi
  rw [hf, hi]
  intro hEq
  have := dispMin_gap F 30 (-10)
  omega

/-- C7 amended: whenever the adjustments map shifts imsak and fajr equally
(in particular when there are no adjustments), the displayed Fajr minus the
displayed Imsak is exactly 10 minutes modulo the 1440 minutes of a day (the
midnight wraparound of the `%24` normalization can shift it by whole
days). -/
theorem imsak_precedes_fajr_mod (lat lon : ℝ) (y mo d : ℤ) (method : String)
    (tz : ℝ) (adj : String → ℤ) (h : adj "imsak" = adj "fajr") :
    (dispMin ((adjusted_times lat lon y mo d method tz adj).fajr)
      - dispMin ((adjusted_times lat lon y mo d method tz adj).imsak)) % 1440
      = 10 := by
  obtain ⟨F, hf, hi⟩ := adjusted_imsak_fajr lat lon y mo d method tz adj
  rw [hf, hi, h]
  have := dispMin_gap F (adj "fajr") (adj "fajr" - 10)
  omega

/-- C7 amended witness: the 10-minute gap theorem at Karachi-like inputs
with the empty adjustments map. -/
theorem imsak_precedes_fajr_mod_witness :
    (dispMin ((adjusted_times 20 10 2025 1 15 "Karachi" 5 (fun _ => 0)).fajr)
      - dispMin ((adjusted_times 20 10 2025 1 15 "Karachi" 5 (fun _ => 0)).imsak))
      % 1440 = 10 :=
  imsak_precedes_fajr_mod 20 10 2025 1 15 "Karachi" 5 (fun _ => 0) rfl

/-- The adjusted Dhuhr value inside the pipeline is the solar-noon
expression shifted by the dhuhr adjustment, for every method id. -/
theorem adjusted_times_dhuhr (lat lon : ℝ) (y mo d : ℤ) (tz : ℝ)
    (adj : String → ℤ) (method : String) :
    (adjusted_times lat lon y mo d method tz adj).dhuhr
      = 12 + tz - lon / 15 - equation_of_time (julian_date y mo d) / 60
        + (adj "dhuhr" : ℝ) / 60 := rfl

/-- The formatted Dhuhr of the pipeline is the formatter applied to the
adjusted Dhuhr value. -/
theorem calculate_prayer_times_dhuhr (lat lon : ℝ) (y mo d : ℤ) (tz : ℝ)
    (adj : String → ℤ) (method : String) :
    (calculate_prayer_times lat lon y mo d method tz adj).times.dhuhr
      = format_time ((adjusted_times lat lon y mo d method tz adj).dhuhr) := rfl

/-- C8: the raw Dhuhr value of every method is exactly the solar-noon
expression `12 + tz - longitude/15 - eqt/60`, the formatted Dhuhr of the
full pipeline is identical for any two method ids, and with no adjustments
it is the formatted solar noon itself. -/
theorem dhuhr_is_solar_noon (lat lon : ℝ) (y mo d : ℤ) (tz : ℝ)
    (adj : String → ℤ) (method : String) :
    (raw_times ((CALCULATION_METHODS method).getD EgyptianParams) lat lon
        (sun_declination (julian_date y mo d))
        (equation_of_time (julian_date y mo d)) tz).dhuhr
      = 12 + tz - lon / 15 - equation_of_time (julian_date y mo d) / 60 ∧
    (∀ m₁ m₂ : String,
      (calculate_prayer_times lat lon y mo d m₁ tz adj).times.dhuhr =
        (calculate_prayer_times lat lon y mo d m₂ tz adj).times.dhuhr) ∧
    (calculate_prayer_times lat lon y mo d method tz (fun _ => 0)).times.dhuhr =
      format_time (12 + tz - lon / 15 - equation_of_time (julian_date y mo d) / 60) := by
  refine ⟨rfl, fun m₁ m₂ => ?_, ?_⟩
  · rw [calculate_prayer_times_dhuhr, calculate_prayer_times_dhuhr,
        adjusted_times_dhuhr, adjusted_times_dhuhr]
  · rw [calculate_prayer_times_dhuhr, adjusted_times_dhuhr]
    norm_num

end PrayerService
